import Mathlib

/-!
Verification of the json2video scene resolver, shallowly embedded from
`app/video_generator.py`, `app/main.py` and `app/webhook_sender.py`.

The embedding models:
* the unit resolver (`parse_percentage`, `parse_size`) over exact rationals,
  with CPython `int()` truncation made explicit;
* the render-plan ordering (`video_clips.sort` keyed on `(track, start)`);
* the per-element clip construction and the zero-clips check of
  `generate_video`, with network fetches abstracted as a success oracle;
* the scale-animation evaluator `scale_func` of `create_image_clip`;
* the webhook retry loop of `process_video_request_with_timeout` together
  with `send_webhook`.
-/

namespace Json2Video

/-! ### Python string primitives over `List Char`

`pyStrip`, `pyLower`, `rstripChars` model CPython `str.strip()`,
`str.lower()` (on the ASCII inputs the resolver handles) and
`str.rstrip(chars)` (which removes any trailing character drawn from the
given set).  `removeAllVmin` models `str.replace('vmin', '')`. -/

def pyStrip (s : List Char) : List Char :=
  ((s.dropWhile Char.isWhitespace).reverse.dropWhile Char.isWhitespace).reverse

def pyLower (s : List Char) : List Char :=
  s.map Char.toLower

def rstripChars (cs : List Char) (s : List Char) : List Char :=
  (s.reverse.dropWhile (fun c => cs.contains c)).reverse

def vminChars : List Char := ['v', 'm', 'i', 'n']

def pctChars : List Char := ['%']

/-- `str.replace('vmin', '')`: every occurrence of the substring `vmin`
is removed, scanning left to right. -/
def removeAllVmin : List Char → List Char
  | [] => []
  | c :: rest =>
    if vminChars.isPrefixOf (c :: rest) then removeAllVmin (rest.drop 3)
    else c :: removeAllVmin rest
termination_by l => l.length
decreasing_by
  · simp only [List.length_drop, List.length_cons]
    omega
  · simp only [List.length_cons]
    omega

/-! ### CPython `float()` on plain decimal numerals

`parseFloat` models `float(s)` on the fragment the resolver exercises:
optionally signed decimal numerals (`"50"`, `"1.5"`, `".5"`, `"5."`),
surrounded by whitespace.  Any other string makes `float` raise
`ValueError`, modelled as `Option.none`. -/

def digitsToNat (l : List Char) : ℕ :=
  l.foldl (fun a c => 10 * a + (c.toNat - 48)) 0

def parseUnsigned (l : List Char) : Option ℚ :=
  let ip := l.takeWhile (fun c => c ≠ '.')
  let rest := l.dropWhile (fun c => c ≠ '.')
  match rest with
  | [] =>
    if ip ≠ [] ∧ ip.all Char.isDigit then some (digitsToNat ip) else Option.none
  | _ :: fp =>
    if (ip ≠ [] ∨ fp ≠ []) ∧ ip.all Char.isDigit ∧ fp.all Char.isDigit then
      some ((digitsToNat ip : ℚ) + (digitsToNat fp : ℚ) / (10 : ℚ) ^ fp.length)
    else Option.none

def parseFloat (s : List Char) : Option ℚ :=
  match pyStrip s with
  | '+' :: r => parseUnsigned r
  | '-' :: r => (parseUnsigned r).map (fun q => -q)
  | r => parseUnsigned r

/-- CPython `int(x)` on a float/rational: truncation toward zero. -/
def pyTrunc (q : ℚ) : ℤ :=
  if 0 ≤ q then ⌊q⌋ else -⌊-q⌋

/-- `max(0, min(q, 100))`, the clamp applied to percentages and to the
`vmin` numeral in `parse_size`. -/
def clamp100 (q : ℚ) : ℚ :=
  max 0 (min q 100)

/-- A Python value as handed to the unit resolver: an `int`/`float`, a
string, or `None`. -/
inductive PyVal where
  | num (q : ℚ)
  | str (s : String)
  | none
deriving DecidableEq

/-! ### The unit resolver

`parse_percentage_core` is the body of `parse_percentage`
(video_generator.py lines 94-113) after the initial
`value.strip().lower()`; `parse_percentage` applies that normalisation.
`parse_size` (lines 116-150) re-feeds its already stripped/lowered string
into `parse_percentage`, whose re-normalisation is then the identity
(CPython `strip`/`lower` are idempotent), so its `%` branch calls the
core on the normalised string directly. -/

def parse_percentage_core (t : List Char) (total : ℤ) (video_height : Option ℤ) : ℤ :=
  if pctChars <:+ t then
    match parseFloat (rstripChars pctChars t) with
    | some p => pyTrunc (clamp100 p / 100 * (total : ℚ))
    | Option.none => 0
  else if vminChars <:+: t then
    match parseFloat (removeAllVmin t) with
    | some q =>
      match video_height with
      | some h => pyTrunc (q / 100 * (h : ℚ))
      | Option.none => 0
    | Option.none => 0
  else 0

def parse_percentage (value : PyVal) (total : ℤ)
    (video_height : Option ℤ := Option.none) : ℤ :=
  match value with
  | .num q => pyTrunc q
  | .str s => parse_percentage_core (pyLower (pyStrip s.toList)) total video_height
  | .none => 0

def parse_size (size_str : PyVal) (reference_size video_width video_height : ℤ) :
    Option ℤ :=
  match size_str with
  | .none => Option.none
  | .num q => some (max 0 (min (pyTrunc q) reference_size))
  | .str s =>
    let t := pyLower (pyStrip s.toList)
    if pctChars <:+ t then
      some (parse_percentage_core t reference_size Option.none)
    else if vminChars <:+ t then
      match parseFloat (rstripChars vminChars t) with
      | some q => some (pyTrunc (clamp100 q / 100 * ((min video_width video_height : ℤ) : ℚ)))
      | Option.none => Option.none
    else
      match parseFloat t with
      | some q => some (max 0 (min (pyTrunc q) reference_size))
      | Option.none => Option.none

/-! ### Clips, elements and the render plan

A `Clip` records the data `generate_video` attaches to the engine objects
it creates and later uses for collection and ordering: the element id
(`clip.name`), whether the object is an `AudioFileClip`, the `track`
attribute and the start time (`clip.start`, set via `set_start`).
Geometry and pixel content live in the external media engine and play no
role in clip survival or ordering, so they are not modelled.

An `Element` carries the JSON fields consulted by the `create_*`
constructors when deciding whether an element survives.  Network fetches
(`download_file`) and the external decode are abstracted by a success
oracle `dl : String → Bool` on source URLs. -/

inductive ClipKind where
  | audio
  | visual
deriving DecidableEq

structure Clip where
  name : String
  kind : ClipKind
  track : ℤ
  start : ℚ
deriving DecidableEq

structure Element where
  id : String
  type : String
  source : Option String := Option.none
  text : Option String := Option.none
  track : Option ℤ := Option.none
  time : Option ℚ := Option.none
  duration : Option ℚ := Option.none
deriving DecidableEq

/-- `create_audio_clip` (video_generator.py lines 195-235): drops the
element when `source` is absent or the download fails, otherwise yields an
`AudioFileClip` started at `element.get('time', 0.0)` with
`track = element.get('track', 0)`. -/
def create_audio_clip (dl : String → Bool) (e : Element) : Option Clip :=
  match e.source with
  | Option.none => Option.none
  | some src =>
    if dl src then
      some { name := e.id, kind := .audio, track := e.track.getD 0, start := e.time.getD 0 }
    else Option.none

/-- `create_image_clip` (lines 263-427): drops the element when `source`
is absent or the download fails; otherwise the decoded clip is resized,
animated and positioned (external engine work, not modelled) and tagged
with the element id, track and start time. -/
def create_image_clip (dl : String → Bool) (e : Element) : Option Clip :=
  match e.source with
  | Option.none => Option.none
  | some src =>
    if dl src then
      some { name := e.id, kind := .visual, track := e.track.getD 0, start := e.time.getD 0 }
    else Option.none

/-- `create_text_clip` (lines 430-498): drops the element when
`element.get('text', '').strip()` is empty; otherwise rasterises the text
(external PIL work, with a bundled fallback font, not modelled) and tags
the clip with the element id, track and start time. -/
def create_text_clip (e : Element) : Option Clip :=
  if pyStrip ((e.text.getD "").toList) = [] then Option.none
  else
    some { name := e.id, kind := .visual, track := e.track.getD 0, start := e.time.getD 0 }

/-- `create_clip` (lines 501-523): dispatch on `element.get('type')`;
unknown types are dropped. -/
def create_clip (dl : String → Bool) (e : Element) : Option Clip :=
  if e.type = "audio" then create_audio_clip dl e
  else if e.type = "image" ∨ e.type = "video" then create_image_clip dl e
  else if e.type = "text" then create_text_clip e
  else Option.none

/-- One iteration of the element loop of `generate_video`
(lines 552-563): a failed element leaves both lists unchanged; an
`AudioFileClip` is appended to `audio_clips`, everything else to
`video_clips`. -/
def clipStep (dl : String → Bool) (acc : List Clip × List Clip) (e : Element) :
    List Clip × List Clip :=
  match create_clip dl e with
  | Option.none => acc
  | some c =>
    match c.kind with
    | .audio => (acc.1, acc.2 ++ [c])
    | .visual => (acc.1 ++ [c], acc.2)

/-- The element loop of `generate_video` (lines 552-563): each element
yields at most one clip; each list collects in input order. -/
def collectClips (dl : String → Bool) (es : List Element) : List Clip × List Clip :=
  es.foldl (clipStep dl) ([], [])

/-- The sort key comparison of
`video_clips.sort(key=lambda c: (getattr(c, 'track', 0), getattr(c, 'start', 0)))`
(line 577): Python tuple order, i.e. lexicographic on `(track, start)`. -/
def keyLE (c d : Clip) : Prop :=
  c.track < d.track ∨ (c.track = d.track ∧ c.start ≤ d.start)

instance keyLE.decidableRel : DecidableRel keyLE := fun c d =>
  inferInstanceAs (Decidable (c.track < d.track ∨ (c.track = d.track ∧ c.start ≤ d.start)))

instance keyLE.isTotal : IsTotal Clip keyLE := by
  constructor
  intro a b
  rcases lt_trichotomy a.track b.track with h | h | h
  · exact Or.inl (Or.inl h)
  · rcases le_total a.start b.start with h2 | h2
    · exact Or.inl (Or.inr ⟨h, h2⟩)
    · exact Or.inr (Or.inr ⟨h.symm, h2⟩)
  · exact Or.inr (Or.inl h)

instance keyLE.isTrans : IsTrans Clip keyLE := by
  constructor
  rintro a b c (hab | ⟨hab, hab2⟩) (hbc | ⟨hbc, hbc2⟩)
  · exact Or.inl (hab.trans hbc)
  · exact Or.inl (hbc ▸ hab)
  · exact Or.inl (hab ▸ hbc)
  · exact Or.inr ⟨hab.trans hbc, hab2.trans hbc2⟩

/-- `video_clips.sort(...)`: CPython list.sort is a stable sort by the
key; any stable sort by a total preorder computes the same list, so it is
modelled by insertion sort under `keyLE`. -/
def sortClips (l : List Clip) : List Clip :=
  List.insertionSort keyLE l

def clipKey (c : Clip) : ℤ × ℚ :=
  (c.track, c.start)

structure Scene where
  width : Option ℤ := Option.none
  height : Option ℤ := Option.none
  duration : Option ℚ := Option.none
  fps : Option ℚ := Option.none
  elements : List Element

/-- Outcome of `generate_video` (lines 526-670): either a composite render
job — the sorted visual clips, the audio mix and the overall duration
`video_spec.get('duration', 15.0)` handed to the encoder — or the
zero-clips failure branch (lines 661-663), which logs
`"Error: No valid clips were created."` and returns `None` without
producing any artifact. Encoding and upload of a successful plan are
external engine work. -/
inductive GenResult where
  | plan (videoClips : List Clip) (audioClips : List Clip) (duration : ℚ)
  | noContent
deriving DecidableEq

def generate_video (dl : String → Bool) (spec : Scene) : GenResult :=
  let clips := collectClips dl spec.elements
  if clips.1 = [] ∧ clips.2 = [] then GenResult.noContent
  else GenResult.plan (sortClips clips.1) clips.2 (spec.duration.getD 15)

/-! ### The scale-animation evaluator

`scale_func` (video_generator.py lines 341-353), with
`anim_start_time = anim.get('time', 0)` and
`anim_end_time = anim_start_time + anim.get('duration', clip.duration)`;
`start_scale`/`end_scale` are the already-resolved scale factors and
`easing = anim.get('easing', 'linear')`. -/

def scale_func (animStartTime animEndTime startScale endScale : ℚ)
    (easing : String) (t : ℚ) : ℚ :=
  if t < animStartTime then startScale
  else if animEndTime < t then endScale
  else
    let progress := (t - animStartTime) / (animEndTime - animStartTime)
    let progress := if easing = "quadratic-out" then 1 - (1 - progress) ^ 2 else progress
    startScale + (endScale - startScale) * progress

/-! ### Webhook delivery and job notification

`send_webhook` (webhook_sender.py lines 55-76) posts the payload and
catches every `requests.exceptions.RequestException` itself, returning
`False` instead of raising; it raises nothing on a failed delivery.  The
retry loop of `process_video_request_with_timeout` (main.py lines 82-92)
only retries when the call raises, so it is modelled over a generic
sender returning `Except` (exception or return value) and instantiated
with the real `send_webhook`, whose result is always `Except.ok`.
`recv n` tells whether the receiver accepts delivery attempt `n`. -/

def send_webhook (recv : ℕ → Bool) (n : ℕ) : Except String Bool :=
  Except.ok (recv n)

/-- The `while retry_count > 0` loop (main.py lines 82-92), started with
`retry_count = 3`: run the sender; on a normal return log
"Webhook sent successfully" and `break`; on an exception decrement and
retry.  Returns the number of delivery attempts made and whether the loop
reported success. -/
def webhookLoop (send : ℕ → Except String Bool) : ℕ → ℕ → ℕ × Bool
  | 0, attempts => (attempts, false)
  | retryCount + 1, attempts =>
    match send attempts with
    | .ok _ => (attempts + 1, true)
    | .error _ => webhookLoop send retryCount (attempts + 1)

/-- The four ways the `try` of `process_video_request_with_timeout`
(main.py lines 74-100) can resolve: `generate_video` returned a URL,
returned `None`, the task timed out, or raised. -/
inductive GenOutcome where
  | ok (url : String)
  | failed
  | timedOut
  | raised (msg : String)
deriving DecidableEq

inductive Payload where
  | success (url : String)
  | error (msg : String)
deriving DecidableEq

/-- The notifications posted to the caller's webhook endpoint by
`process_video_request_with_timeout` for each outcome: on a URL, one post
per attempt of the retry loop; on `generate_video` returning `None`, only
the log line "Video generation failed; webhook not sent." (no post); on a
timeout or an exception, a single error post. -/
def processNotifications (recv : ℕ → Bool) (g : GenOutcome) : List Payload :=
  match g with
  | .ok url => List.replicate (webhookLoop (send_webhook recv) 3 0).1 (Payload.success url)
  | .failed => []
  | .timedOut => [Payload.error "Video generation timed out"]
  | .raised msg => [Payload.error msg]

/-! ### Helper lemmas -/

lemma pyTrunc_eq_floor {q : ℚ} (h : 0 ≤ q) : pyTrunc q = ⌊q⌋ := by
  rw [pyTrunc, if_pos h]

lemma not_pct_suffix_of_vmin_suffix {t : List Char} (h : vminChars <:+ t) :
    ¬ pctChars <:+ t := by
  intro hp
  obtain ⟨u, hu⟩ := h
  obtain ⟨w, hw⟩ := hp
  have h1 : t.getLast? = some 'n' := by
    rw [← hu, List.getLast?_append]
    rfl
  have h2 : t.getLast? = some '%' := by
    rw [← hw, List.getLast?_append]
    rfl
  rw [h1] at h2
  exact absurd (Option.some.inj h2) (by decide)

lemma clamp100_nonneg (q : ℚ) : 0 ≤ clamp100 q :=
  le_max_left 0 _

lemma clamp100_le_100 (q : ℚ) : clamp100 q ≤ 100 :=
  max_le (by norm_num) (min_le_right q 100)

lemma clamp100_of_mem {q : ℚ} (h0 : 0 ≤ q) (h1 : q ≤ 100) : clamp100 q = q := by
  rw [clamp100, min_eq_left h1, max_eq_right h0]

/-- The resolved percentage always lands in `[0, ref]` for a nonnegative
reference length. -/
lemma pct_result_bounds (p : ℚ) {ref : ℤ} (href : 0 ≤ ref) :
    0 ≤ pyTrunc (clamp100 p / 100 * (ref : ℚ)) ∧
      pyTrunc (clamp100 p / 100 * (ref : ℚ)) ≤ ref := by
  have hx : (0 : ℚ) ≤ clamp100 p / 100 * (ref : ℚ) := by
    have := clamp100_nonneg p
    have hr : (0 : ℚ) ≤ (ref : ℚ) := by exact_mod_cast href
    positivity
  rw [pyTrunc_eq_floor hx]
  constructor
  · exact Int.floor_nonneg.mpr hx
  · have hle : clamp100 p / 100 * (ref : ℚ) ≤ (ref : ℚ) := by
      have h1 : clamp100 p / 100 ≤ 1 := by
        rw [div_le_one (by norm_num : (0:ℚ) < 100)]
        exact clamp100_le_100 p
      have hr : (0 : ℚ) ≤ (ref : ℚ) := by exact_mod_cast href
      exact mul_le_of_le_one_left hr h1
    calc ⌊clamp100 p / 100 * (ref : ℚ)⌋ ≤ ⌊(ref : ℚ)⌋ := Int.floor_le_floor hle
      _ = ref := Int.floor_intCast ref

/-! ### Claim theorems: the unit resolver (C1-C3) -/

/-- C2, as written, is false on the code: `parse_percentage` truncates
with `int(...)` rather than rounding.  Resolving `"50%"` against the
reference length 3 yields `int(1.5) = 1`, while the claimed
`round(50/100 * 3) = 2`. -/
theorem c2_counterexample :
    parse_percentage (.str "50%") 3 Option.none = 1 ∧
      round ((50 : ℚ) / 100 * 3) = 2 ∧ (1 : ℤ) ≠ 2 := by
  refine ⟨?_, ?_, by decide⟩
  · simp +decide [parse_percentage, parse_percentage_core, pyLower, pyStrip, rstripChars,
      vminChars, pctChars, parseFloat, parseUnsigned, digitsToNat, clamp100, pyTrunc]
    norm_num
  · rw [round_eq]
    norm_num

/-- C2 (amended): for every percentage string whose numeral parses to `N`,
`parse_percentage` clamps `N` into `[0, 100]` and then returns the
CPython `int()` truncation of `N/100 * ref` — not the rounding the claim
states; the result always lies in `[0, ref]` for `0 ≤ ref`, and for
`N ∈ [0, 100]` it equals `⌊N/100 * ref⌋`. -/
theorem c2_percentage_resolution (s : String) (N : ℚ) (ref : ℤ) (hv : Option ℤ)
    (hsuf : pctChars <:+ pyLower (pyStrip s.toList))
    (hnum : parseFloat (rstripChars pctChars (pyLower (pyStrip s.toList))) = some N) :
    parse_percentage (.str s) ref hv = pyTrunc (clamp100 N / 100 * (ref : ℚ)) ∧
      (0 ≤ ref → 0 ≤ parse_percentage (.str s) ref hv ∧
        parse_percentage (.str s) ref hv ≤ ref) ∧
      (0 ≤ ref → 0 ≤ N → N ≤ 100 →
        parse_percentage (.str s) ref hv = ⌊N / 100 * (ref : ℚ)⌋) := by
  have hval : parse_percentage (.str s) ref hv = pyTrunc (clamp100 N / 100 * (ref : ℚ)) := by
    rw [parse_percentage, parse_percentage_core, if_pos hsuf, hnum]
  refine ⟨hval, ?_, ?_⟩
  · intro href
    rw [hval]
    exact pct_result_bounds N href
  · intro href h0 h1
    rw [hval, clamp100_of_mem h0 h1]
    have hx : (0 : ℚ) ≤ N / 100 * (ref : ℚ) := by
      have hr : (0 : ℚ) ≤ (ref : ℚ) := by exact_mod_cast href
      positivity
    exact pyTrunc_eq_floor hx

/-- Witness for C2 (amended): `"75%"` of reference 200 resolves to 150,
inside `[0, 200]`. -/
theorem c2_percentage_resolution_witness :
    parse_percentage (.str "75%") 200 Option.none = ⌊(75 : ℚ) / 100 * (200 : ℚ)⌋ ∧
      0 ≤ parse_percentage (.str "75%") 200 Option.none ∧
      parse_percentage (.str "75%") 200 Option.none ≤ 200 := by
  have h := c2_percentage_resolution "75%" 75 200 Option.none (by decide)
    (by simp +decide [parseFloat, parseUnsigned, digitsToNat, pyStrip, pyLower, rstripChars,
          pctChars])
  exact ⟨h.2.2 (by norm_num) (by norm_num) (by norm_num),
    (h.2.1 (by norm_num)).1, (h.2.1 (by norm_num)).2⟩

/-- C1, as written, is false on the code: the `vmin` path of
`parse_percentage` — the one used for font sizes — divides by the canvas
*height*, unclamped, not by `min(canvas_width, canvas_height)`.  On a
720×1280 canvas, `"50 vmin"` resolves to `int(0.5 * 1280) = 640`; the
claimed value is `int(clamp(50)/100 * min(720, 1280)) = 360`, and keeping
`min` fixed while changing only the height changes the result. -/
theorem c1_counterexample :
    parse_percentage (.str "50 vmin") 720 (some 1280) = 640 ∧
      parse_percentage (.str "50 vmin") 720 (some 720) = 360 ∧
      pyTrunc (clamp100 50 / 100 * ((min (720 : ℤ) 1280 : ℤ) : ℚ)) = 360 ∧
      (640 : ℤ) ≠ 360 := by
  refine ⟨?_, ?_, ?_, by decide⟩
  · simp +decide [parse_percentage, parse_percentage_core, pyLower, pyStrip, rstripChars,
      vminChars, pctChars, parseFloat, parseUnsigned, digitsToNat, removeAllVmin, clamp100,
      pyTrunc]
    norm_num
  · simp +decide [parse_percentage, parse_percentage_core, pyLower, pyStrip, rstripChars,
      vminChars, pctChars, parseFloat, parseUnsigned, digitsToNat, removeAllVmin, clamp100,
      pyTrunc]
    norm_num
  · norm_num [pyTrunc, clamp100]

/-- C1 (amended): only `parse_size`'s `vmin` path resolves against
`min(canvas_width, canvas_height)` (clamped to `[0,100]`, truncated), and
that result is independent of the per-element reference axis; the `vmin`
path of `parse_percentage` — used for font sizes — instead returns the
unclamped `int(N/100 * canvas_height)`, a function of the canvas height
alone. -/
theorem c1_vmin_resolution (s : String) (N : ℚ) (ref ref2 w h hgt : ℤ)
    (hsuf : vminChars <:+ pyLower (pyStrip s.toList)) :
    (parseFloat (rstripChars vminChars (pyLower (pyStrip s.toList))) = some N →
      parse_size (.str s) ref w h = some (pyTrunc (clamp100 N / 100 * ((min w h : ℤ) : ℚ))) ∧
      parse_size (.str s) ref w h = parse_size (.str s) ref2 w h) ∧
    (parseFloat (removeAllVmin (pyLower (pyStrip s.toList))) = some N →
      parse_percentage (.str s) ref (some hgt) = pyTrunc (N / 100 * (hgt : ℚ))) := by
  have hnp := not_pct_suffix_of_vmin_suffix hsuf
  constructor
  · intro hnum
    have hval : ∀ r : ℤ, parse_size (.str s) r w h =
        some (pyTrunc (clamp100 N / 100 * ((min w h : ℤ) : ℚ))) := by
      intro r
      rw [parse_size]
      simp only [if_neg hnp, if_pos hsuf, hnum]
    exact ⟨hval ref, (hval ref).trans (hval ref2).symm⟩
  · intro hnum
    rw [parse_percentage, parse_percentage_core, if_neg hnp, if_pos hsuf.isInfix, hnum]

/-- Witness for C1 (amended): `"50 vmin"` on a 720×1280 canvas via
`parse_size` gives 360 for any reference axis, while via
`parse_percentage` (the font-size route) it gives 640. -/
theorem c1_vmin_resolution_witness :
    parse_size (.str "50 vmin") 600 720 1280 = some 360 ∧
      parse_size (.str "50 vmin") 600 720 1280 = parse_size (.str "50 vmin") 700 720 1280 ∧
      parse_percentage (.str "50 vmin") 600 (some 1280) = 640 := by
  have h := c1_vmin_resolution "50 vmin" 50 600 700 720 1280 1280 (by decide)
  have hnum1 : parseFloat (rstripChars vminChars (pyLower (pyStrip "50 vmin".toList))) =
      some 50 := by
    simp +decide [parseFloat, parseUnsigned, digitsToNat, pyStrip, pyLower, rstripChars,
      vminChars]
  have hnum2 : parseFloat (removeAllVmin (pyLower (pyStrip "50 vmin".toList))) = some 50 := by
    simp +decide [parseFloat, parseUnsigned, digitsToNat, pyStrip, pyLower, removeAllVmin,
      vminChars]
  refine ⟨?_, (h.1 hnum1).2, ?_⟩
  · rw [(h.1 hnum1).1]
    norm_num [pyTrunc, clamp100]
  · rw [h.2 hnum2]
    norm_num [pyTrunc]

/-- C3, as written, is false on the code: a malformed `%`-suffixed string
is routed into `parse_percentage`, whose error fallback returns the
number `0`, so `parse_size` yields `0` — a spurious numeric value — not
`None`. -/
theorem c3_counterexample :
    parse_size (.str "abc%") 500 720 1280 = some 0 ∧
      some (0 : ℤ) ≠ (Option.none : Option ℤ) := by
  refine ⟨?_, by decide⟩
  simp +decide [parse_size, parse_percentage_core, pyLower, pyStrip, rstripChars, vminChars,
    pctChars, parseFloat, parseUnsigned, digitsToNat, removeAllVmin, clamp100, pyTrunc]

/-- C3 (amended): a malformed size string *not* ending in `%` resolves to
`None` (whether its `vmin` numeral or the plain numeral fails to parse),
signalling the caller's positional default; but a malformed string ending
in `%` resolves to the spurious numeric value `0` via `parse_percentage`'s
error fallback. -/
theorem c3_malformed_resolution (s : String) (ref w h : ℤ) :
    (¬ pctChars <:+ pyLower (pyStrip s.toList) →
      (vminChars <:+ pyLower (pyStrip s.toList) →
        parseFloat (rstripChars vminChars (pyLower (pyStrip s.toList))) = Option.none) →
      (¬ vminChars <:+ pyLower (pyStrip s.toList) →
        parseFloat (pyLower (pyStrip s.toList)) = Option.none) →
      parse_size (.str s) ref w h = Option.none) ∧
    (pctChars <:+ pyLower (pyStrip s.toList) →
      parseFloat (rstripChars pctChars (pyLower (pyStrip s.toList))) = Option.none →
      parse_size (.str s) ref w h = some 0) := by
  constructor
  · intro hnp hvmin hother
    rw [parse_size]
    by_cases hs : vminChars <:+ pyLower (pyStrip s.toList)
    · simp only [if_neg hnp, if_pos hs, hvmin hs]
    · simp only [if_neg hnp, if_neg hs, hother hs]
  · intro hp hnum
    rw [parse_size]
    simp only [if_pos hp, parse_percentage_core, if_pos hp, hnum]

/-- Witness for C3 (amended): `"abc"` and `"x vmin"` resolve to `None`,
while `"xy%"` resolves to `0`. -/
theorem c3_malformed_resolution_witness :
    parse_size (.str "abc") 500 720 1280 = Option.none ∧
      parse_size (.str "x vmin") 500 720 1280 = Option.none ∧
      parse_size (.str "xy%") 500 720 1280 = some 0 := by
  refine ⟨(c3_malformed_resolution "abc" 500 720 1280).1 (by decide) (by decide) ?_,
    (c3_malformed_resolution "x vmin" 500 720 1280).1 (by decide) ?_ (by decide),
    (c3_malformed_resolution "xy%" 500 720 1280).2 (by decide) ?_⟩
  · intro _
    simp +decide [parseFloat, parseUnsigned, digitsToNat, pyStrip, pyLower]
  · intro _
    simp +decide [parseFloat, parseUnsigned, digitsToNat, pyStrip, pyLower, rstripChars,
      vminChars]
  · simp +decide [parseFloat, parseUnsigned, digitsToNat, pyStrip, pyLower, rstripChars,
      pctChars]

/-! ### Claim theorems: render-plan ordering (C4) -/

lemma keyLE_of_clipKey_eq {a b : Clip} (h : clipKey a = clipKey b) : keyLE a b := by
  rw [clipKey, clipKey, Prod.mk.injEq] at h
  exact Or.inr ⟨h.1, le_of_eq h.2⟩

/-- Inserting `a` into `l` preserves the filtered subsequence of any fixed
key class, putting `a` first exactly when it belongs to that class. -/
lemma filter_orderedInsert (a : Clip) (l : List Clip) (k : ℤ × ℚ) :
    (l.orderedInsert keyLE a).filter (fun c => decide (clipKey c = k)) =
      if clipKey a = k then a :: l.filter (fun c => decide (clipKey c = k))
      else l.filter (fun c => decide (clipKey c = k)) := by
  induction l with
  | nil =>
    by_cases hk : clipKey a = k <;> simp [List.orderedInsert, List.filter, hk]
  | cons b t ih =>
    by_cases hab : keyLE a b
    · rw [List.orderedInsert, if_pos hab]
      by_cases hk : clipKey a = k <;> simp [List.filter_cons, hk]
    · rw [List.orderedInsert, if_neg hab]
      by_cases hbk : clipKey b = k
      · by_cases hk : clipKey a = k
        · exact absurd (keyLE_of_clipKey_eq (hk.trans hbk.symm)) hab
        · simp [List.filter_cons, hbk, hk, ih]
      · simp [List.filter_cons, hbk, ih]

/-- Stability of the render-plan sort: clips of any fixed
`(track, start)` key keep their input order. -/
lemma filter_sortClips (l : List Clip) (k : ℤ × ℚ) :
    (sortClips l).filter (fun c => decide (clipKey c = k)) =
      l.filter (fun c => decide (clipKey c = k)) := by
  induction l with
  | nil => rfl
  | cons a t ih =>
    rw [sortClips, List.insertionSort, filter_orderedInsert]
    rw [sortClips] at ih
    by_cases hk : clipKey a = k <;> simp [List.filter_cons, hk, ih]

/-- The concrete clips of the claim's tie-break example:
`A(track=0, start=1)` and `B(track=1, start=0)`. -/
def clipA : Clip :=
  { name := "A", kind := .visual, track := 0, start := 1 }

def clipB : Clip :=
  { name := "B", kind := .visual, track := 1, start := 0 }

/-- C4 (confirmed): the render plan is sorted ascending by
`(track, start_time)`; the sort is stable (clips with equal key keep
their input order), and `B(track=1, start=0)` always renders after
`A(track=0, start=1)` regardless of input order. -/
theorem c4_plan_ordering (l : List Clip) :
    (sortClips l).Sorted keyLE ∧
      (∀ k : ℤ × ℚ, (sortClips l).filter (fun c => decide (clipKey c = k)) =
        l.filter (fun c => decide (clipKey c = k))) ∧
      sortClips [clipA, clipB] = [clipA, clipB] ∧
      sortClips [clipB, clipA] = [clipA, clipB] := by
  refine ⟨List.sorted_insertionSort keyLE l, fun k => filter_sortClips l k, ?_, ?_⟩
  · simp [sortClips, List.insertionSort, List.orderedInsert, clipA, clipB, keyLE]
  · simp [sortClips, List.insertionSort, List.orderedInsert, clipA, clipB, keyLE]

/-! ### Claim theorems: the scale-animation evaluator (C5) -/

/-- C5 (confirmed): for an animation of positive duration, the evaluated
scale is `start_scale` before `anim.time`, `end_scale` after
`anim.time + anim.duration`, the (possibly quadratic-out-eased) linear
interpolation in between, and exactly `start_scale` / `end_scale` at the
two boundaries for either easing — so the curve is continuous there. -/
theorem c5_scale_continuity (t0 dur s0 s1 : ℚ) (easing : String) (hdur : 0 < dur) :
    (∀ t, t < t0 → scale_func t0 (t0 + dur) s0 s1 easing t = s0) ∧
      (∀ t, t0 + dur < t → scale_func t0 (t0 + dur) s0 s1 easing t = s1) ∧
      (∀ t, t0 ≤ t → t ≤ t0 + dur →
        scale_func t0 (t0 + dur) s0 s1 easing t =
          s0 + (s1 - s0) *
            (if easing = "quadratic-out"
             then 1 - (1 - (t - t0) / dur) ^ 2
             else (t - t0) / dur)) ∧
      scale_func t0 (t0 + dur) s0 s1 easing t0 = s0 ∧
      scale_func t0 (t0 + dur) s0 s1 easing (t0 + dur) = s1 := by
  have hne : dur ≠ 0 := ne_of_gt hdur
  have hsimp : t0 + dur - t0 = dur := by ring
  refine ⟨?_, ?_, ?_, ?_, ?_⟩
  · intro t ht
    rw [scale_func, if_pos ht]
  · intro t ht
    rw [scale_func, if_neg (by linarith), if_pos ht]
  · intro t ht1 ht2
    rw [scale_func, if_neg (by linarith), if_neg (by linarith), hsimp]
  · rw [scale_func, if_neg (by linarith), if_neg (by linarith), hsimp]
    have hp : (t0 - t0) / dur = 0 := by
      rw [sub_self, zero_div]
    rw [hp]
    split <;> ring
  · rw [scale_func, if_neg (by linarith), if_neg (by linarith), hsimp, div_self hne]
    split <;> ring

/-- Witness for C5: the quadratic-out animation starting at `t = 1` with
duration 2 from scale 1 to scale 3/2 takes its endpoint values at the
boundaries. -/
theorem c5_scale_continuity_witness :
    scale_func 1 (1 + 2) 1 (3 / 2) "quadratic-out" 1 = 1 ∧
      scale_func 1 (1 + 2) 1 (3 / 2) "quadratic-out" (1 + 2) = 3 / 2 ∧
      scale_func 1 (1 + 2) 1 (3 / 2) "quadratic-out" 0 = 1 := by
  have h := c5_scale_continuity 1 2 1 (3 / 2) "quadratic-out" (by norm_num)
  exact ⟨h.2.2.2.1, h.2.2.2.2, h.1 0 (by norm_num)⟩

/-! ### Claim theorems: partial failure and the zero-clips check
(C6, C7, C10) -/

/-- When every element of the tail is dropped, the loop leaves the
accumulator untouched. -/
lemma foldl_clipStep_all_none (dl : String → Bool) (es : List Element)
    (h : ∀ e ∈ es, create_clip dl e = Option.none) :
    ∀ acc : List Clip × List Clip, es.foldl (clipStep dl) acc = acc := by
  induction es with
  | nil => intro acc; rfl
  | cons e t ih =>
    intro acc
    rw [List.foldl_cons, clipStep, h e (List.mem_cons_self e t)]
    exact ih (fun x hx => h x (List.mem_cons_of_mem e hx)) acc

/-- C6 (confirmed): a scene holding one malformed element and one
surviving visual element yields a render plan with exactly that one
descriptor; the job proceeds instead of aborting. -/
theorem c6_partial_failure (dl : String → Bool) (e1 e2 : Element) (c : Clip)
    (w h : Option ℤ) (dur fps : Option ℚ)
    (h1 : create_clip dl e1 = Option.none)
    (h2 : create_clip dl e2 = some c)
    (hk : c.kind = ClipKind.visual) :
    generate_video dl
        { width := w, height := h, duration := dur, fps := fps, elements := [e1, e2] } =
      GenResult.plan [c] [] (dur.getD 15) ∧
      generate_video dl
          { width := w, height := h, duration := dur, fps := fps, elements := [e1, e2] } ≠
        GenResult.noContent := by
  have hstep1 : clipStep dl ([], []) e1 = ([], []) := by
    rw [clipStep, h1]
  have hstep2 : clipStep dl ([], []) e2 = ([c], []) := by
    simp only [clipStep, h2, hk]
    rfl
  have hcollect : collectClips dl [e1, e2] = ([c], []) := by
    rw [collectClips, List.foldl_cons, List.foldl_cons, List.foldl_nil, hstep1, hstep2]
  constructor
  · rw [generate_video, hcollect]
    rfl
  · rw [generate_video, hcollect]
    simp

/-- Witness for C6: an image element with no `source` next to a text
element with text `"Hello"`. -/
theorem c6_partial_failure_witness :
    generate_video (fun _ => true)
        { duration := some 5,
          elements := [{ id := "bad", type := "image" },
            { id := "ok", type := "text", text := some "Hello" }] } =
      GenResult.plan [{ name := "ok", kind := .visual, track := 0, start := 0 }] [] 5 := by
  have h := c6_partial_failure (fun _ => true)
    { id := "bad", type := "image" } { id := "ok", type := "text", text := some "Hello" }
    { name := "ok", kind := .visual, track := 0, start := 0 }
    Option.none Option.none (some 5) Option.none
    (by rfl)
    (by simp +decide [create_clip, create_text_clip, pyStrip])
    (by rfl)
  exact h.1

/-- C7 (confirmed): when no element survives validation — including the
empty scene — `generate_video` takes the zero-clips failure branch and
hands nothing to the encoder. -/
theorem c7_no_renderable_content (dl : String → Bool) (spec : Scene)
    (h : ∀ e ∈ spec.elements, create_clip dl e = Option.none) :
    generate_video dl spec = GenResult.noContent ∧
      ∀ (v a : List Clip) (d : ℚ), generate_video dl spec ≠ GenResult.plan v a d := by
  have hcollect : collectClips dl spec.elements = ([], []) :=
    foldl_clipStep_all_none dl spec.elements h ([], [])
  constructor
  · rw [generate_video, hcollect]
    simp
  · intro v a d
    rw [generate_video, hcollect]
    simp

/-- Witness for C7: a scene whose only element has an unknown type is
dropped, and the job fails with no artifact. -/
theorem c7_no_renderable_content_witness :
    generate_video (fun _ => false) { duration := some 5, elements := [{ id := "x", type := "wat" }] } =
      GenResult.noContent :=
  (c7_no_renderable_content (fun _ => false)
      { duration := some 5, elements := [{ id := "x", type := "wat" }] }
      (by intro e he; simp at he; subst he; rfl)).1

/-- C10 (confirmed): the zero-clips failure fires exactly when both the
visual and the audio list are empty; with no visual clips but a nonempty
audio mix, the job still builds a plan of the full scene duration with
the audio attached. -/
theorem c10_audio_only_proceeds (dl : String → Bool) (spec : Scene) :
    (generate_video dl spec = GenResult.noContent ↔
      collectClips dl spec.elements = ([], [])) ∧
      (∀ a : List Clip, collectClips dl spec.elements = ([], a) → a ≠ [] →
        generate_video dl spec = GenResult.plan [] a (spec.duration.getD 15)) := by
  constructor
  · rw [generate_video]
    by_cases hc : (collectClips dl spec.elements).1 = [] ∧ (collectClips dl spec.elements).2 = []
    · rw [if_pos hc]
      simp only [true_iff]
      exact Prod.ext hc.1 hc.2
    · rw [if_neg hc]
      constructor
      · intro habs
        exact absurd habs (by simp)
      · intro habs
        exact absurd ⟨by rw [habs], by rw [habs]⟩ hc
  · intro a hcollect hne
    have hcond : ¬((([] : List Clip), a).1 = [] ∧ (([] : List Clip), a).2 = []) := by
      simp [hne]
    rw [generate_video, hcollect, if_neg hcond]
    rfl

/-- Witness for C10: a scene holding a single audio element proceeds to a
plan with an empty visual list, the audio clip, and the scene duration. -/
theorem c10_audio_only_proceeds_witness :
    generate_video (fun _ => true)
        { duration := some 7,
          elements := [{ id := "m", type := "audio", source := some "s.mp3" }] } =
      GenResult.plan [] [{ name := "m", kind := .audio, track := 0, start := 0 }] 7 :=
  (c10_audio_only_proceeds (fun _ => true)
      { duration := some 7,
        elements := [{ id := "m", type := "audio", source := some "s.mp3" }] }).2
    [{ name := "m", kind := .audio, track := 0, start := 0 }] (by rfl) (by simp)

/-! ### Claim theorems: job notification and webhook retries (C8, C9) -/

/-- C8, as written, is false on the code: when `generate_video` returns
`None` (`GenOutcome.failed` — no renderable content, a render error or an
upload error), `process_video_request_with_timeout` only logs
"Video generation failed; webhook not sent." and posts nothing, so the
caller receives zero notifications instead of exactly one. -/
theorem c8_counterexample :
    processNotifications (fun _ => true) GenOutcome.failed = [] ∧
      (processNotifications (fun _ => true) GenOutcome.failed).length ≠ 1 := by
  exact ⟨rfl, by decide⟩

/-- C8 (amended): for a successful generation, a timeout, or an in-flight
exception the caller's endpoint is posted to exactly once; but a job
whose `generate_video` call returns `None` produces no notification at
all — that failure is silently dropped, contradicting the
always-notified contract for exactly this outcome. -/
theorem c8_notification_contract (recv : ℕ → Bool) (g : GenOutcome) :
    (g = GenOutcome.failed → processNotifications recv g = []) ∧
      (g ≠ GenOutcome.failed → (processNotifications recv g).length = 1) := by
  cases g with
  | ok url => exact ⟨(fun habs => nomatch habs), fun _ => rfl⟩
  | failed => exact ⟨fun _ => rfl, fun habs => absurd rfl habs⟩
  | timedOut => exact ⟨(fun habs => nomatch habs), fun _ => rfl⟩
  | raised msg => exact ⟨(fun habs => nomatch habs), fun _ => rfl⟩

/-- Witness for C8 (amended): one success post for a generated URL, no
post for a failed generation. -/
theorem c8_notification_contract_witness :
    (processNotifications (fun _ => true) (GenOutcome.ok "u")).length = 1 ∧
      processNotifications (fun _ => true) GenOutcome.failed = [] :=
  ⟨(c8_notification_contract (fun _ => true) (GenOutcome.ok "u")).2 (by decide),
    (c8_notification_contract (fun _ => true) GenOutcome.failed).1 rfl⟩

/-- C9: the claim matches the intent visible in main.py's own log
messages ("attempt k/3", "Failed to send webhook after 3 attempts"), but
the code cannot retry: `send_webhook` catches every
`requests.exceptions.RequestException` itself and returns `False`, so the
loop's `except` never fires.  For any receiver — in particular the
claim's fail, fail, succeed receiver `fun n => 2 ≤ n` — exactly one
delivery attempt is made, and the loop logs success even though that
attempt was refused. -/
theorem c9_webhook_retry :
    (∀ recv : ℕ → Bool, webhookLoop (send_webhook recv) 3 0 = (1, true)) ∧
      send_webhook (fun n => decide (2 ≤ n)) 0 = Except.ok false ∧
      webhookLoop (send_webhook (fun n => decide (2 ≤ n))) 3 0 = (1, true) :=
  ⟨fun _ => rfl, rfl, rfl⟩

end Json2Video
